import Mathlib

/-!
Shallow embedding of the authorization core of the `api-edu-saas-luminia`
backend (auth middleware, ABAC middleware, tenant ownership middleware,
auth service and password utilities), together with proofs checking the
natural-language specification against it.

External collaborators (the Prisma persistence layer, the `jsonwebtoken`
signing library and the `bcryptjs` hash) are modelled as explicit function
parameters (lookup oracles, verification oracles); every branch of the
translated functions mirrors the corresponding TypeScript branch.
-/

/-- Outcome of an Express middleware in this codebase: either the chain
continues (`next`) or one of the response helpers is invoked with a
message. -/
inductive MwOutcome where
  | next : MwOutcome
  | badRequest : String → MwOutcome
  | forbidden : String → MwOutcome
  | unauthorized : String → MwOutcome
  deriving DecidableEq, Repr

/-- True exactly when the middleware denied with `forbiddenResponse`. -/
def MwOutcome.isForbidden : MwOutcome → Bool
  | .forbidden _ => true
  | _ => false

/-- Plan record as selected by `setupABACContext` (fields of the Prisma
`Plan` model used by the ABAC middleware).  `features` is the free-form
JSON feature map, modelled as its truthiness-of-lookup function. -/
structure Plan where
  id : String
  slug : String
  features : String → Bool
  studentLimit : Int
  teacherLimit : Int
  adminLimit : Int
  courseLimit : Int
  aiTeacherCallsMonthly : Int
  aiStudentMinutesMonthly : Int
  certificateMonthly : Int
  virtualClassroomLimit : Int
  storageMB : Int

/-- Results of the institution-scoped Prisma count queries issued by
`checkPlanLimits`:  students, teachers and courses of the institution,
virtual classrooms reachable from it, and certificates issued to its
students since the first instant of the current month. -/
structure InstCounts where
  students : Nat
  teachers : Nat
  courses : Nat
  virtualClassrooms : Nat
  certificatesThisMonth : Nat
  deriving DecidableEq, Repr

/-- The `switch (resourceType)` of `checkPlanLimits`: the pair
`(currentCount, limit)` it selects for a recognized resource type, and
`none` for the `default` branch. -/
def quotaSelect (resourceType : String) (plan : Plan) (counts : InstCounts) :
    Option (Nat × Int) :=
  match resourceType with
  | "student" => some (counts.students, plan.studentLimit)
  | "teacher" => some (counts.teachers, plan.teacherLimit)
  | "course" => some (counts.courses, plan.courseLimit)
  | "virtualClassroom" => some (counts.virtualClassrooms, plan.virtualClassroomLimit)
  | "certificate" => some (counts.certificatesThisMonth, plan.certificateMonthly)
  | _ => none

/-- Translation of `checkPlanLimits(resourceType, action)` from
`src/shared/middleware/abac.middleware.ts`.  Only `create` actions are
gated; a missing plan denies; the switch selects the institution-scoped
count and the plan limit for the five recognized resource types and
defaults to `next()`; finally `limit !== -1 && currentCount >= limit`
denies with `forbiddenResponse`. -/
def checkPlanLimits (resourceType : String) (action : String)
    (plan? : Option Plan) (counts : InstCounts) : MwOutcome :=
  if action ≠ "create" then
    .next
  else
    match plan? with
    | none => .forbidden "Plan requerido para esta operación"
    | some plan =>
      match quotaSelect resourceType plan counts with
      | none => .next
      | some (currentCount, limit) =>
        if limit ≠ -1 ∧ limit ≤ (currentCount : Int) then
          .forbidden ("Límite del plan excedido para " ++ resourceType ++
            " (" ++ toString currentCount ++ "/" ++ toString limit ++ ")")
        else
          .next

/-- Translation of `checkPlanFeature(feature)` from
`src/shared/middleware/abac.middleware.ts`:  missing plan denies; the
three named features are gated on their monthly numeric field being
`> 0` (denying on `<= 0`); any other feature name is looked up in the
plan's JSON `features` map and denied when falsy. -/
def checkPlanFeature (feature : String) (plan? : Option Plan) : MwOutcome :=
  match plan? with
  | none => .forbidden "Plan requerido para esta funcionalidad"
  | some plan =>
    match feature with
    | "ai_teacher" =>
      if plan.aiTeacherCallsMonthly ≤ 0 then
        .forbidden "Funcionalidad de IA para docentes no disponible en su plan"
      else .next
    | "ai_student" =>
      if plan.aiStudentMinutesMonthly ≤ 0 then
        .forbidden "Funcionalidad de IA para estudiantes no disponible en su plan"
      else .next
    | "certificates" =>
      if plan.certificateMonthly ≤ 0 then
        .forbidden "Generación de certificados no disponible en su plan"
      else .next
    | _ =>
      if plan.features feature then .next
      else .forbidden ("Funcionalidad " ++ feature ++ " no disponible en su plan")

/-- The five resource types recognized by `checkPlanLimits`' switch. -/
def quotaGatedKinds : List String :=
  ["student", "teacher", "course", "virtualClassroom", "certificate"]

/-- The count queried by `checkPlanLimits` for a recognized resource type. -/
def quotaCount (counts : InstCounts) : String → Nat
  | "student" => counts.students
  | "teacher" => counts.teachers
  | "course" => counts.courses
  | "virtualClassroom" => counts.virtualClassrooms
  | "certificate" => counts.certificatesThisMonth
  | _ => 0

/-- The plan limit compared by `checkPlanLimits` for a recognized resource
type. -/
def quotaLimit (plan : Plan) : String → Int
  | "student" => plan.studentLimit
  | "teacher" => plan.teacherLimit
  | "course" => plan.courseLimit
  | "virtualClassroom" => plan.virtualClassroomLimit
  | "certificate" => plan.certificateMonthly
  | _ => 0

/-! ### JWT utilities (`src/shared/utils/jwt.ts`)

Header strings are modelled as `List Char` so that the JavaScript
`String.prototype.split(' ')` can be translated exactly. -/

/-- Model of the JavaScript `s.split(' ')` over a list of characters:
splitting the empty string yields `[[]]`, and every occurrence of the
separator starts a new (possibly empty) chunk. -/
def splitSpace : List Char → List (List Char)
  | [] => [[]]
  | c :: rest =>
    if c = ' ' then
      [] :: splitSpace rest
    else
      match splitSpace rest with
      | [] => [[c]]
      | h :: t => (c :: h) :: t

/-- Joins chunks back with the `' '` separator; the right inverse used to
reconstruct a header from its `splitSpace` image. -/
def joinSpace : List (List Char) → List Char
  | [] => []
  | [p] => p
  | p :: ps => p ++ ' ' :: joinSpace ps

/-- Translation of `extractTokenFromHeader(authHeader)` from
`src/shared/utils/jwt.ts`:  a missing (or empty, hence falsy) header
yields `null`; the header is split on `' '` and the token is returned
exactly when there are two parts and the first is the literal
`"Bearer"`. -/
def extractTokenFromHeader (authHeader : Option (List Char)) : Option (List Char) :=
  match authHeader with
  | none => none
  | some s =>
    if s = [] then none
    else
      match splitSpace s with
      | [scheme, token] => if scheme = "Bearer".data then some token else none
      | _ => none

/-! ### Tenant resource-ownership middleware
(`validateResourceOwnership` in the tenant middleware). -/

/-- The row shape selected by `validateResourceOwnership`'s
`findUnique` call: `{ id, institutionId }`. -/
structure ResourceRow where
  id : String
  institutionId : String
  deriving DecidableEq, Repr

/-- The models present in `validateResourceOwnership`'s `modelMap`. -/
def ownershipModels : List String :=
  ["student", "teacher", "course", "career", "virtualClassroom", "subject"]

/-- Which of the mapped models' tables actually carry an `institutionId`
column in the schema
(`prisma/migrations/20250814153841_init/migration.sql`):  `Student` and
`Career` do; `Teacher`, `Course`, `Subject` and `VirtualClassroom` do
not (their institution scoping elsewhere in the code goes through the
`user`, `career` and `subject.course.career` joins, as in
`checkPlanLimits`' count queries). -/
def modelHasInstitutionId : String → Bool
  | "student" => true
  | "career" => true
  | _ => false

/-- Translation of `validateResourceOwnership(resourceModel, resourceIdParam)`
from the tenant middleware.  `hasUser` is the truthiness of `req.user`,
`reqInstitutionId` of `req.institutionId` (a `some ""` is falsy in JS and
treated as absent), `params` models `req.params`, and `db model id`
models `modelMap[model].findUnique({ where: { id } })`.

The `findUnique` call selects `{ id, institutionId }` for every mapped
model, but four of the backing tables have no `institutionId` column, so
for those models the Prisma client throws a validation error before any
row is returned; the middleware's `catch` turns every thrown error into
`forbiddenResponse('Error validando propiedad del recurso')`. -/
def validateResourceOwnership (resourceModel : String) (resourceIdParam : String)
    (hasUser : Bool) (reqInstitutionId : Option String)
    (params : String → Option String)
    (db : String → String → Option ResourceRow) : MwOutcome :=
  if hasUser = false ∨ reqInstitutionId = none ∨ reqInstitutionId = some "" then
    .badRequest "Contexto de autenticación/tenant requerido"
  else
    match params resourceIdParam with
    | none => .badRequest ("Parámetro " ++ resourceIdParam ++ " requerido")
    | some resourceId =>
      if resourceId = "" then
        .badRequest ("Parámetro " ++ resourceIdParam ++ " requerido")
      else if resourceModel ∈ ownershipModels then
        if modelHasInstitutionId resourceModel = false then
          .forbidden "Error validando propiedad del recurso"
        else
          match db resourceModel resourceId with
          | none => .badRequest "Recurso no encontrado"
          | some resource =>
            if some resource.institutionId ≠ reqInstitutionId then
              .forbidden "Acceso denegado a este recurso"
            else
              .next
      else
        .badRequest ("Modelo " ++ resourceModel ++ " no soportado")

/-! ### Authentication middleware (`src/shared/middleware/auth.middleware.ts`)
and auth service (`auth.service.ts`).

The Prisma `user.findUnique` with its role/institution includes is
modelled as a lookup oracle returning a `UserRec`; `jwt.verify` is
modelled as a verification oracle returning either the decoded payload or
the message of the error `verifyAccessToken` / `verifyRefreshToken`
throws. -/

/-- Access-token claims (`JwtPayload` in `src/shared/utils/jwt.ts`),
without the library-added `iat`/`exp`. -/
structure JwtPayload where
  userId : String
  institutionId : String
  roleId : String
  roleName : String
  email : String
  deriving DecidableEq, Repr

/-- Refresh-token claims (`RefreshTokenPayload` in `jwt.ts`). -/
structure RefreshPayload where
  userId : String
  institutionId : String
  deriving DecidableEq, Repr

/-- A token pair as produced by `generateTokenPair`, with the opaque
signing step abstracted away: each token is represented by the claims it
is signed over. -/
structure TokenPair where
  accessPayload : JwtPayload
  refreshPayload : RefreshPayload
  deriving DecidableEq, Repr

/-- Translation of `generateTokenPair(userPayload)` from `jwt.ts`: the
access token carries the full payload, the refresh token only
`userId`/`institutionId`. -/
def generateTokenPair (userPayload : JwtPayload) : TokenPair :=
  { accessPayload := userPayload
    refreshPayload :=
      { userId := userPayload.userId, institutionId := userPayload.institutionId } }

/-- The `role` relation joined into a `userRoles` row. -/
structure RoleRec where
  name : String
  deriving DecidableEq, Repr

/-- A `UserRole` row with the joined `role`. -/
structure UserRoleRec where
  roleId : String
  isPrimary : Bool
  role : RoleRec
  deriving DecidableEq, Repr

/-- A `User` row as loaded by the auth middleware/service, with joined
`userRoles` and institution status.  `institutionStatus = none` models a
user whose `institution` relation is absent; `password = none` models a
null password column. -/
structure UserRec where
  id : String
  email : String
  fullName : String
  password : Option String
  institutionId : String
  isActive : Bool
  institutionStatus : Option String
  userRoles : List UserRoleRec
  deriving DecidableEq, Repr

/-- The active-role selection used by `authenticate`, `loginUser` and
`refreshTokens`:  `userRoles.find(ur => ur.isPrimary) || userRoles[0]`. -/
def findActiveRole (userRoles : List UserRoleRec) : Option UserRoleRec :=
  match userRoles.find? (fun ur => ur.isPrimary) with
  | some r => some r
  | none => userRoles.head?

/-- The `req.user` value attached by `authenticate` on success. -/
structure AuthUser where
  id : String
  email : String
  institutionId : String
  roleId : String
  roleName : String
  isActive : Bool
  deriving DecidableEq, Repr

/-- Outcome of the authentication middlewares: the chain continues with a
user attached, continues unauthenticated, or a response helper is
invoked. -/
inductive AuthOutcome where
  | nextAuthed : AuthUser → AuthOutcome
  | nextUnauthed : AuthOutcome
  | unauthorized : String → AuthOutcome
  | forbidden : String → AuthOutcome
  deriving DecidableEq, Repr

/-- Translation of the `authenticate` middleware:  `if (!token)` — the
extraction returned `null` or the extracted token is the falsy empty
string (header `"Bearer "`) — → `unauthorizedResponse`; failed
verification → `unauthorizedResponse` with the thrown error's message;
unknown user → `unauthorizedResponse`; inactive user →
`unauthorizedResponse`; institution status other than `"active"` →
`forbiddenResponse`; no role assignment → `forbiddenResponse`; otherwise
`req.user` is attached and `next()` runs.  Every error branch inside the
function body sends a response itself, so the function never rejects
towards its caller. -/
def authenticate (authHeader : Option (List Char))
    (verify : List Char → Except String JwtPayload)
    (db : String → Option UserRec) : AuthOutcome :=
  match extractTokenFromHeader authHeader with
  | none => .unauthorized "Token de acceso requerido"
  | some token =>
    if token = [] then .unauthorized "Token de acceso requerido"
    else
    match verify token with
    | .error msg => .unauthorized msg
    | .ok decoded =>
      match db decoded.userId with
      | none => .unauthorized "Usuario no encontrado"
      | some user =>
        if user.isActive = false then
          .unauthorized "Usuario inactivo"
        else if user.institutionStatus ≠ some "active" then
          .forbidden "Institución inactiva"
        else
          match findActiveRole user.userRoles with
          | none => .forbidden "Usuario sin roles activos"
          | some activeRole =>
            .nextAuthed
              { id := user.id
                email := user.email
                institutionId := user.institutionId
                roleId := activeRole.roleId
                roleName := activeRole.role.name
                isActive := user.isActive }

/-- Translation of the `optionalAuthenticate` middleware:  when
`if (!token)` holds — no extractable token, or the falsy empty token of
the header `"Bearer "` — it calls `next()` directly; with a (non-empty)
token it awaits `authenticate`.  Because `authenticate` handles every
failure internally by sending a response (it never rejects), the
surrounding `catch` of `optionalAuthenticate` is unreachable and the
outcome with a non-empty token present is exactly the outcome of
`authenticate`. -/
def optionalAuthenticate (authHeader : Option (List Char))
    (verify : List Char → Except String JwtPayload)
    (db : String → Option UserRec) : AuthOutcome :=
  match extractTokenFromHeader authHeader with
  | none => .nextUnauthed
  | some token =>
    if token = [] then .nextUnauthed
    else authenticate authHeader verify db

/-- An error produced by `createAppError(message, statusCode)`. -/
structure AppError where
  statusCode : Nat
  message : String
  deriving DecidableEq, Repr

/-- Login input (`LoginData` in the auth service). -/
structure LoginData where
  email : String
  password : String
  deriving DecidableEq, Repr

/-- The `AuthResponse` returned by `loginUser`. -/
structure AuthResponse where
  userId : String
  email : String
  fullName : String
  institutionId : String
  roleName : String
  isActive : Bool
  tokens : TokenPair
  deriving DecidableEq, Repr

/-- Translation of `loginUser(data)` from the auth service.  `db` models
`prisma.user.findUnique({ where: { email } })` with roles and institution
joined; `verifyPw pw hash` models the awaited `verifyPassword` bcrypt
comparison.  The branch order is that of the source: user not found →
generic 401; inactive user → 401 with its own reason; missing/inactive
institution → 403 with its own reason; null password → generic 401;
failed comparison → generic 401; no role → 403; success → token pair from
the primary (else first) role. -/
def loginUser (data : LoginData) (db : String → Option UserRec)
    (verifyPw : String → String → Bool) : Except AppError AuthResponse :=
  match db data.email with
  | none => .error { statusCode := 401, message := "Credenciales inválidas" }
  | some user =>
    if user.isActive = false then
      .error { statusCode := 401, message := "Usuario inactivo" }
    else if user.institutionStatus ≠ some "active" then
      .error { statusCode := 403, message := "Institución inactiva" }
    else
      match user.password with
      | none => .error { statusCode := 401, message := "Credenciales inválidas" }
      | some storedHash =>
        if verifyPw data.password storedHash = false then
          .error { statusCode := 401, message := "Credenciales inválidas" }
        else
          match findActiveRole user.userRoles with
          | none => .error { statusCode := 403, message := "Usuario sin roles asignados" }
          | some primaryRole =>
            .ok
              { userId := user.id
                email := user.email
                fullName := user.fullName
                institutionId := user.institutionId
                roleName := primaryRole.role.name
                isActive := user.isActive
                tokens := generateTokenPair
                  { userId := user.id
                    institutionId := user.institutionId
                    roleId := primaryRole.roleId
                    roleName := primaryRole.role.name
                    email := user.email } }

/-- Translation of `refreshTokens(refreshToken)` from the auth service.
`verifyR` models `verifyRefreshToken` (which throws plain `Error`s
without a `statusCode`, so a verification failure falls through to the
catch-all `createAppError('Error refrescando tokens', 500)`);  `db`
models the user reload with roles and institution status.  A missing,
inactive user or non-active institution gives a single 401; otherwise a
fresh pair is generated from the user's current primary (else first)
role. -/
def refreshTokens (refreshToken : List Char)
    (verifyR : List Char → Except String RefreshPayload)
    (db : String → Option UserRec) : Except AppError TokenPair :=
  match verifyR refreshToken with
  | .error _ => .error { statusCode := 500, message := "Error refrescando tokens" }
  | .ok decoded =>
    match db decoded.userId with
    | none => .error { statusCode := 401, message := "Token de refresh inválido" }
    | some user =>
      if user.isActive = false ∨ user.institutionStatus ≠ some "active" then
        .error { statusCode := 401, message := "Token de refresh inválido" }
      else
        match findActiveRole user.userRoles with
        | none => .error { statusCode := 403, message := "Usuario sin roles asignados" }
        | some primaryRole =>
          .ok (generateTokenPair
            { userId := user.id
              institutionId := user.institutionId
              roleId := primaryRole.roleId
              roleName := primaryRole.role.name
              email := user.email })

/-- The value returned by `requestPasswordReset`: a reset token and its
expiry instant (milliseconds since epoch). -/
structure ResetResult where
  resetToken : String
  expiresAtMs : Nat
  deriving DecidableEq, Repr

/-- The attribute write performed by `requestPasswordReset` on the found
user (`passwordResetToken` / `passwordResetExpires`). -/
structure StoredReset where
  userId : String
  passwordResetToken : String
  passwordResetExpiresMs : Nat
  deriving DecidableEq, Repr

/-- Observable behaviour of one `requestPasswordReset` call: the returned
value, the artificial `setTimeout` delay awaited (milliseconds), and the
attribute update written to the user row (if any). -/
structure ResetOutcome where
  result : ResetResult
  delayMs : Nat
  stored : Option StoredReset
  deriving DecidableEq, Repr

/-- Translation of `requestPasswordReset(email)` from the auth service.
`db` models the user lookup by email; `genToken` is the value produced by
`generatePasswordResetToken()`; `nowMs` is `Date.now()`.  A missing or
inactive user gets a 1000 ms simulated processing delay and the dummy
token with a 15-minute expiry; a found active user gets a real token with
the same 15-minute expiry, stored in the user's attributes. -/
def requestPasswordReset (email : String) (db : String → Option UserRec)
    (genToken : String) (nowMs : Nat) : ResetOutcome :=
  let notFoundOutcome : ResetOutcome :=
    { result := { resetToken := "dummy-token", expiresAtMs := nowMs + 15 * 60 * 1000 }
      delayMs := 1000
      stored := none }
  match db email with
  | none => notFoundOutcome
  | some user =>
    if user.isActive = false then
      notFoundOutcome
    else
      { result := { resetToken := genToken, expiresAtMs := nowMs + 15 * 60 * 1000 }
        delayMs := 0
        stored := some
          { userId := user.id
            passwordResetToken := genToken
            passwordResetExpiresMs := nowMs + 15 * 60 * 1000 } }

/-! ### Password utilities (`src/shared/utils/password.ts`)

Passwords are modelled as `List Char`; the JavaScript regular-expression
tests are translated into their character-class meaning over the list. -/

/-- `/[A-Z]/` membership test for one character. -/
def isUpperAZ (c : Char) : Bool := 'A' ≤ c && c ≤ 'Z'

/-- `/[a-z]/` membership test for one character. -/
def isLowerAZ (c : Char) : Bool := 'a' ≤ c && c ≤ 'z'

/-- `/\d/` membership test for one character. -/
def isDigit09 (c : Char) : Bool := '0' ≤ c && c ≤ '9'

/-- The special-character class `[@$!%*?&]` used throughout `password.ts`. -/
def specialCharList : List Char := ['@', '$', '!', '%', '*', '?', '&']

/-- `/[A-Z]/.test(password)`. -/
def hasUpperCase (password : List Char) : Bool := password.any isUpperAZ

/-- `/[a-z]/.test(password)`. -/
def hasLowerCase (password : List Char) : Bool := password.any isLowerAZ

/-- `/\d/.test(password)`. -/
def hasNumbers (password : List Char) : Bool := password.any isDigit09

/-- `/[@$!%*?&]/.test(password)`. -/
def hasSpecialChars (password : List Char) : Bool :=
  password.any (fun c => specialCharList.contains c)

/-- ASCII lower-casing, which is what the `i` regex flag amounts to for
the all-ASCII deny-list patterns. -/
def toLowerAscii (c : Char) : Char :=
  if 'A' ≤ c && c ≤ 'Z' then Char.ofNat (c.toNat + 32) else c

/-- Whether `needle` is a prefix of `hay` (character lists). -/
def startsWithSeq : List Char → List Char → Bool
  | [], _ => true
  | _ :: _, [] => false
  | a :: as, b :: bs => a = b && startsWithSeq as bs

/-- Whether `needle` occurs as a contiguous subsequence of the second
argument; this is the substring semantics of an un-anchored
`pattern.test(s)`. -/
def containsSeq (needle : List Char) : List Char → Bool
  | [] => needle.isEmpty
  | c :: rest => startsWithSeq needle (c :: rest) || containsSeq needle rest

/-- The deny-list from `validatePassword`'s `commonPatterns`
(`/123456/`, `/password/i`, `/qwerty/i`, `/admin/i`, `/letmein/i`),
each given in lower case. -/
def commonPatterns : List (List Char) :=
  ["123456".data, "password".data, "qwerty".data, "admin".data, "letmein".data]

/-- Whether some deny-listed pattern matches the password
(case-insensitively, via ASCII lower-casing). -/
def hasCommonPattern (password : List Char) : Bool :=
  commonPatterns.any (fun p => containsSeq p (password.map toLowerAscii))

/-- The strength tiers of `password.ts`. -/
inductive PasswordStrength where
  | WEAK | MEDIUM | STRONG | VERY_STRONG
  deriving DecidableEq, Repr

/-- The `PASSWORD_PATTERNS.strong` regex
`/^(?=.*[a-z])(?=.*[A-Z])(?=.*\d)[a-zA-Z\d@$!%*?&]{8,}$/`: lower, upper
and digit present, every character in the class, length at least 8. -/
def strongPattern (password : List Char) : Bool :=
  hasLowerCase password && hasUpperCase password && hasNumbers password &&
    decide (8 ≤ password.length) &&
    password.all (fun c =>
      isLowerAZ c || isUpperAZ c || isDigit09 c || specialCharList.contains c)

/-- The `PASSWORD_PATTERNS.veryStrong` regex: `strong` plus a
`(?=.*[@$!%*?&])` lookahead. -/
def veryStrongPattern (password : List Char) : Bool :=
  strongPattern password && hasSpecialChars password

/-- Translation of `evaluatePasswordStrength(password)`. -/
def evaluatePasswordStrength (password : List Char) : PasswordStrength :=
  if password = [] then .WEAK
  else if veryStrongPattern password then .VERY_STRONG
  else if strongPattern password then .STRONG
  else if decide (8 ≤ password.length) && hasUpperCase password &&
      hasLowerCase password && hasNumbers password then .MEDIUM
  else .WEAK

/-- The `PasswordValidationResult` record of `password.ts`. -/
structure PasswordValidationResult where
  isValid : Bool
  strength : PasswordStrength
  errors : List String
  suggestions : List String
  deriving DecidableEq, Repr

/-- Translation of `validatePassword(password, requireStrong)` from
`password.ts`.  The empty password short-circuits; otherwise the error
and suggestion lists collect, in source order, the length bounds
(minimum 8, maximum 128), the three character-class requirements, the
special-character requirement when `requireStrong` is set, and a single
deny-list error; `isValid` is `errors.length === 0`. -/
def validatePassword (password : List Char) (requireStrong : Bool) :
    PasswordValidationResult :=
  if password = [] then
    { isValid := false
      strength := .WEAK
      errors := ["La contraseña es requerida"]
      suggestions := ["Proporciona una contraseña válida"] }
  else
    let errors :=
      (if password.length < 8 then
        ["La contraseña debe tener al menos 8 caracteres"] else []) ++
      (if 128 < password.length then
        ["La contraseña no puede tener más de 128 caracteres"] else []) ++
      (if hasUpperCase password = false then
        ["La contraseña debe contener al menos una letra mayúscula"] else []) ++
      (if hasLowerCase password = false then
        ["La contraseña debe contener al menos una letra minúscula"] else []) ++
      (if hasNumbers password = false then
        ["La contraseña debe contener al menos un número"] else []) ++
      (if requireStrong = true ∧ hasSpecialChars password = false then
        ["La contraseña debe contener al menos un carácter especial"] else []) ++
      (if hasCommonPattern password = true then
        ["La contraseña contiene patrones comunes inseguros"] else [])
    let suggestions :=
      (if hasUpperCase password = false then
        ["Agrega al menos una letra mayúscula (A-Z)"] else []) ++
      (if hasLowerCase password = false then
        ["Agrega al menos una letra minúscula (a-z)"] else []) ++
      (if hasNumbers password = false then
        ["Agrega al menos un número (0-9)"] else []) ++
      (if requireStrong = true ∧ hasSpecialChars password = false then
        ["Agrega al menos un carácter especial (@$!%*?&)"] else []) ++
      (if hasCommonPattern password = true then
        ["Evita usar patrones comunes como 123456, password, etc."] else [])
    { isValid := errors.isEmpty
      strength := evaluatePasswordStrength password
      errors := errors
      suggestions := suggestions }

/-! ### Concrete sample data used by the witnesses. -/

/-- A concrete plan whose student limit is the parameter and whose other
limits are fixed small values. -/
def samplePlan (studentLimit : Int) : Plan :=
  { id := "plan-basic"
    slug := "basic"
    features := fun _ => false
    studentLimit := studentLimit
    teacherLimit := 10
    adminLimit := 2
    courseLimit := 20
    aiTeacherCallsMonthly := 0
    aiStudentMinutesMonthly := 0
    certificateMonthly := 3
    virtualClassroomLimit := 5
    storageMB := 1024 }

/-- A concrete plan with every numeric field set to the `-1` unlimited
sentinel. -/
def sentinelPlan : Plan :=
  { id := "plan-pro"
    slug := "pro"
    features := fun _ => false
    studentLimit := -1
    teacherLimit := -1
    adminLimit := -1
    courseLimit := -1
    aiTeacherCallsMonthly := -1
    aiStudentMinutesMonthly := -1
    certificateMonthly := -1
    virtualClassroomLimit := -1
    storageMB := 0 }

/-- Concrete institution counts with the given number of students and no
other resources. -/
def sampleCounts (students : Nat) : InstCounts :=
  { students := students
    teachers := 0
    courses := 0
    virtualClassrooms := 0
    certificatesThisMonth := 0 }

/-- A concrete primary role assignment with the given role name. -/
def sampleRole (name : String) : UserRoleRec :=
  { roleId := "role-" ++ name, isPrimary := true, role := { name := name } }

/-- A concrete user row, parameterized by the fields the auth flows
branch on. -/
def sampleUserRec (isActive : Bool) (institutionStatus : Option String)
    (password : Option String) (userRoles : List UserRoleRec) : UserRec :=
  { id := "user-1"
    email := "a@x.com"
    fullName := "Ada"
    password := password
    institutionId := "inst-1"
    isActive := isActive
    institutionStatus := institutionStatus
    userRoles := userRoles }

/-! ## Lemmas about the split model. -/

theorem splitSpace_ne_nil (s : List Char) : splitSpace s ≠ [] := by
  induction s with
  | nil => simp [splitSpace]
  | cons c rest ih =>
    simp only [splitSpace]
    split
    · simp
    · cases e : splitSpace rest with
      | nil => simp
      | cons h t => simp

theorem splitSpace_no_space (s : List Char) :
    ∀ p ∈ splitSpace s, ' ' ∉ p := by
  induction s with
  | nil =>
    intro p hp
    simp [splitSpace] at hp
    simp [hp]
  | cons c rest ih =>
    intro p hp
    simp only [splitSpace] at hp
    by_cases hc : c = ' '
    · rw [if_pos hc] at hp
      rcases List.mem_cons.mp hp with h | h
      · simp [h]
      · exact ih p h
    · rw [if_neg hc] at hp
      cases e : splitSpace rest with
      | nil => exact absurd e (splitSpace_ne_nil rest)
      | cons hd tl =>
        rw [e] at hp
        rcases List.mem_cons.mp hp with h | h
        · subst h
          intro hmem
          rcases List.mem_cons.mp hmem with h' | h'
          · exact hc h'.symm
          · exact ih hd (e ▸ List.mem_cons_self hd tl) h'
        · exact ih p (e ▸ List.mem_cons_of_mem hd h)

theorem joinSpace_splitSpace (s : List Char) : joinSpace (splitSpace s) = s := by
  induction s with
  | nil => simp [splitSpace, joinSpace]
  | cons c rest ih =>
    simp only [splitSpace]
    by_cases hc : c = ' '
    · rw [if_pos hc]
      cases e : splitSpace rest with
      | nil => exact absurd e (splitSpace_ne_nil rest)
      | cons hd tl =>
        rw [e] at ih
        simp [joinSpace, hc, ih]
    · rw [if_neg hc]
      cases e : splitSpace rest with
      | nil => exact absurd e (splitSpace_ne_nil rest)
      | cons hd tl =>
        rw [e] at ih
        cases tl with
        | nil => simpa [joinSpace] using congrArg (c :: ·) ih
        | cons x xs => simpa [joinSpace] using congrArg (c :: ·) ih

theorem splitSpace_of_no_space (s : List Char) (hs : ' ' ∉ s) :
    splitSpace s = [s] := by
  induction s with
  | nil => simp [splitSpace]
  | cons c rest ih =>
    have hc : ¬ c = ' ' := fun h => hs (h ▸ List.mem_cons_self c rest)
    have hrest : ' ' ∉ rest := fun h => hs (List.mem_cons_of_mem c h)
    simp only [splitSpace, if_neg hc, ih hrest]

theorem splitSpace_append (a b : List Char) (ha : ' ' ∉ a) :
    splitSpace (a ++ ' ' :: b) = a :: splitSpace b := by
  induction a with
  | nil => simp [splitSpace]
  | cons c a' ih =>
    have hc : ¬ c = ' ' := fun h => ha (h ▸ List.mem_cons_self c a')
    have ha' : ' ' ∉ a' := fun h => ha (List.mem_cons_of_mem c h)
    simp only [List.cons_append, splitSpace, if_neg hc, List.append_eq]
    rw [ih ha']

/-- Claim C8: bearer extraction returns the token exactly when the header
is `"Bearer <token>"` — exact scheme casing, exactly one separating
space (so exactly two space-separated parts) — and returns `null`
(never an error) for a missing header or any other shape. -/
theorem extractTokenFromHeader_bearer_form (h : Option (List Char)) (t : List Char) :
    extractTokenFromHeader h = some t ↔
      h = some ("Bearer".data ++ ' ' :: t) ∧ ' ' ∉ t := by
  constructor
  · intro he
    cases h with
    | none => simp [extractTokenFromHeader] at he
    | some s =>
      simp only [extractTokenFromHeader] at he
      by_cases hs : s = []
      · rw [if_pos hs] at he
        exact absurd he (by simp)
      · rw [if_neg hs] at he
        rcases e : splitSpace s with _ | ⟨a, _ | ⟨b, _ | _⟩⟩ <;> rw [e] at he
        · exact absurd he (by simp)
        · exact absurd he (by simp)
        · have he' : (if a = "Bearer".data then some b else none) = some t := he
          by_cases hb : a = "Bearer".data
          · rw [if_pos hb] at he'
            have hbt : b = t := by simpa using he'
            subst hbt
            subst hb
            have hjoin := joinSpace_splitSpace s
            rw [e] at hjoin
            refine ⟨?_, ?_⟩
            · simp [joinSpace] at hjoin
              rw [← hjoin]
              rfl
            · exact splitSpace_no_space s b (e ▸ by simp)
          · rw [if_neg hb] at he'
            exact absurd he' (by simp)
        · exact absurd he (by simp)
  · rintro ⟨rfl, hn⟩
    have hB : ' ' ∉ "Bearer".data := by decide
    simp only [extractTokenFromHeader]
    rw [if_neg (by simp)]
    rw [splitSpace_append _ _ hB, splitSpace_of_no_space _ hn]
    simp

/-! ## Plan-limit and feature-gate theorems. -/

/-- Claim C1: for a create request with a plan present and a recognized
resource kind, `checkPlanLimits` denies with `Forbidden` exactly when the
plan's matching limit is not `-1` and the current institution-scoped
count is at least that limit, and allows (`next`) otherwise — so a limit
of `-1` always allows regardless of count. -/
theorem checkPlanLimits_quota_boundary (plan : Plan) (counts : InstCounts)
    (kind : String) (hk : kind ∈ quotaGatedKinds) :
    ((checkPlanLimits kind "create" (some plan) counts).isForbidden = true ↔
      (quotaLimit plan kind ≠ -1 ∧
        quotaLimit plan kind ≤ (quotaCount counts kind : Int))) ∧
    (checkPlanLimits kind "create" (some plan) counts = MwOutcome.next ↔
      ¬ (quotaLimit plan kind ≠ -1 ∧
        quotaLimit plan kind ≤ (quotaCount counts kind : Int))) := by
  fin_cases hk <;>
    constructor <;>
      simp only [checkPlanLimits, quotaSelect, quotaLimit, quotaCount] <;>
        split_ifs with h <;>
          simp_all [MwOutcome.isForbidden]

/-- Witness for C1 at the spec's own boundary example: `studentLimit = 5`
with 5 existing students denies, with 4 allows, and `studentLimit = -1`
allows at any count. -/
theorem checkPlanLimits_quota_boundary_witness :
    (checkPlanLimits "student" "create" (some (samplePlan 5))
        (sampleCounts 5)).isForbidden = true ∧
    checkPlanLimits "student" "create" (some (samplePlan 5))
        (sampleCounts 4) = MwOutcome.next ∧
    checkPlanLimits "student" "create" (some (samplePlan (-1)))
        (sampleCounts 1000000) = MwOutcome.next :=
  ⟨(checkPlanLimits_quota_boundary (samplePlan 5) (sampleCounts 5) "student"
      (by decide)).1.mpr (by decide),
   (checkPlanLimits_quota_boundary (samplePlan 5) (sampleCounts 4) "student"
      (by decide)).2.mpr (by decide),
   (checkPlanLimits_quota_boundary (samplePlan (-1)) (sampleCounts 1000000) "student"
      (by decide)).2.mpr (by decide)⟩

/-- Counterexample to claim C5 as stated: a create request with an
unrecognized resource kind but no plan in the ABAC context is denied
(the plan-presence check runs before the resource-kind switch), so not
every unrecognized-kind create passes through ungated. -/
theorem checkPlanLimits_noplan_unrecognized_denied :
    checkPlanLimits "grade" "create" none (sampleCounts 0) =
      MwOutcome.forbidden "Plan requerido para esta operación" ∧
    checkPlanLimits "grade" "create" none (sampleCounts 0) ≠ MwOutcome.next := by
  exact ⟨rfl, by decide⟩

/-- Claim C5 (amended): a non-`create` action always passes regardless of
plan and counts; a create with a plan present and an unrecognized
resource kind passes through ungated; a create without a plan is denied
regardless of resource kind. -/
theorem checkPlanLimits_default_allow (kind action : String) (plan : Plan)
    (counts : InstCounts) :
    (action ≠ "create" →
      ∀ plan? : Option Plan, checkPlanLimits kind action plan? counts = MwOutcome.next) ∧
    (kind ∉ quotaGatedKinds →
      checkPlanLimits kind "create" (some plan) counts = MwOutcome.next) ∧
    (checkPlanLimits kind "create" none counts =
      MwOutcome.forbidden "Plan requerido para esta operación") := by
  refine ⟨?_, ?_, ?_⟩
  · intro ha plan?
    simp [checkPlanLimits, ha]
  · intro hk
    have hsel : quotaSelect kind plan counts = none := by
      simp only [quotaGatedKinds, List.mem_cons, List.not_mem_nil, or_false,
        not_or] at hk
      unfold quotaSelect
      split <;> simp_all
    simp [checkPlanLimits, hsel]
  · simp [checkPlanLimits]

/-- Witness for the amended C5: a read is never gated, and a create of an
unrecognized kind with a plan present passes. -/
theorem checkPlanLimits_default_allow_witness :
    checkPlanLimits "student" "read" none (sampleCounts 0) = MwOutcome.next ∧
    checkPlanLimits "grade" "create" (some (samplePlan 0)) (sampleCounts 0) =
      MwOutcome.next :=
  ⟨(checkPlanLimits_default_allow "student" "read" (samplePlan 0) (sampleCounts 0)).1
      (by decide) none,
   (checkPlanLimits_default_allow "grade" "create" (samplePlan 0) (sampleCounts 0)).2.1
      (by decide)⟩

/-- Claim C10: the feature gate `checkPlanFeature` requires the monthly
numeric field to be strictly positive, so the `-1` unlimited sentinel
(which `checkPlanLimits` treats as "always allow") is denied like `0`:
with `certificateMonthly = -1` the `certificates` feature is forbidden
even though the certificate quota check passes, and likewise for
`ai_teacher` / `ai_student`. -/
theorem checkPlanFeature_sentinel_denied (plan : Plan) :
    (plan.certificateMonthly = -1 →
      checkPlanFeature "certificates" (some plan) =
        MwOutcome.forbidden "Generación de certificados no disponible en su plan") ∧
    (plan.aiTeacherCallsMonthly = -1 →
      checkPlanFeature "ai_teacher" (some plan) =
        MwOutcome.forbidden "Funcionalidad de IA para docentes no disponible en su plan") ∧
    (plan.aiStudentMinutesMonthly = -1 →
      checkPlanFeature "ai_student" (some plan) =
        MwOutcome.forbidden "Funcionalidad de IA para estudiantes no disponible en su plan") ∧
    (plan.certificateMonthly = -1 → ∀ counts : InstCounts,
      checkPlanLimits "certificate" "create" (some plan) counts = MwOutcome.next) := by
  refine ⟨?_, ?_, ?_, ?_⟩
  · intro h
    simp [checkPlanFeature, h]
  · intro h
    simp [checkPlanFeature, h]
  · intro h
    simp [checkPlanFeature, h]
  · intro h counts
    simp [checkPlanLimits, quotaSelect, h]

/-- Witness for C10 on the all-unlimited plan. -/
theorem checkPlanFeature_sentinel_denied_witness :
    checkPlanFeature "certificates" (some sentinelPlan) =
      MwOutcome.forbidden "Generación de certificados no disponible en su plan" ∧
    checkPlanFeature "ai_teacher" (some sentinelPlan) =
      MwOutcome.forbidden "Funcionalidad de IA para docentes no disponible en su plan" ∧
    checkPlanFeature "ai_student" (some sentinelPlan) =
      MwOutcome.forbidden "Funcionalidad de IA para estudiantes no disponible en su plan" ∧
    checkPlanLimits "certificate" "create" (some sentinelPlan) (sampleCounts 0) =
      MwOutcome.next :=
  ⟨(checkPlanFeature_sentinel_denied sentinelPlan).1 rfl,
   (checkPlanFeature_sentinel_denied sentinelPlan).2.1 rfl,
   (checkPlanFeature_sentinel_denied sentinelPlan).2.2.1 rfl,
   (checkPlanFeature_sentinel_denied sentinelPlan).2.2.2 rfl (sampleCounts 0)⟩

/-! ## Tenant-isolation theorems. -/

/-- Counterexample to claim C2 as stated: for the supported kind
`teacher` the backing table has no `institutionId` column, so the
`findUnique({ select: { id, institutionId } })` call throws a Prisma
validation error and the middleware's `catch` answers `Forbidden` even
when the resource belongs to the principal's own institution — the
middleware can never call `next` for this kind, refuting "allows
whenever they are equal, for every supported resource kind". -/
theorem validateResourceOwnership_teacher_always_errors :
    validateResourceOwnership "teacher" "id" true (some "inst-A")
        (fun _ => some "res-1")
        (fun _ _ => some { id := "res-1", institutionId := "inst-A" }) =
      MwOutcome.forbidden "Error validando propiedad del recurso" ∧
    validateResourceOwnership "teacher" "id" true (some "inst-A")
        (fun _ => some "res-1")
        (fun _ _ => some { id := "res-1", institutionId := "inst-A" }) ≠
      MwOutcome.next :=
  ⟨rfl, by decide⟩

/-- Claim C2 (amended): with authentication and tenant context
established, for the supported resource kinds whose tables carry an
`institutionId` column (`student` and `career`) the middleware fails
with `BadRequest` when the resource row does not exist, denies with
`Forbidden` when the row's institution differs from the principal's, and
calls `next` when they are equal; for the four other supported kinds
(`teacher`, `course`, `subject`, `virtualClassroom`) the select of the
missing column throws and the `catch` always answers `Forbidden`
(`Error validando propiedad del recurso`), regardless of ownership. -/
theorem validateResourceOwnership_schema_isolation
    (model idParam instId rid : String) (params : String → Option String)
    (db : String → String → Option ResourceRow)
    (hm : model ∈ ownershipModels) (hinst : instId ≠ "")
    (hp : params idParam = some rid) (hrid : rid ≠ "") :
    (modelHasInstitutionId model = true →
      (db model rid = none →
        validateResourceOwnership model idParam true (some instId) params db =
          MwOutcome.badRequest "Recurso no encontrado") ∧
      (∀ row, db model rid = some row →
        (row.institutionId ≠ instId →
          validateResourceOwnership model idParam true (some instId) params db =
            MwOutcome.forbidden "Acceso denegado a este recurso") ∧
        (row.institutionId = instId →
          validateResourceOwnership model idParam true (some instId) params db =
            MwOutcome.next))) ∧
    (modelHasInstitutionId model = false →
      validateResourceOwnership model idParam true (some instId) params db =
        MwOutcome.forbidden "Error validando propiedad del recurso") := by
  constructor
  · intro hcol
    refine ⟨?_, fun row hrow => ⟨?_, ?_⟩⟩ <;>
      intro h <;>
        simp_all [validateResourceOwnership]
  · intro hcol
    simp_all [validateResourceOwnership]

/-- Witness for the amended C2: on `student` (a kind whose table has the
column) a cross-tenant access is denied, a same-tenant access passes and
a missing row is a bad request; on `course` (no column) even a
same-tenant access lands in the catch's `Forbidden`. -/
theorem validateResourceOwnership_schema_isolation_witness :
    validateResourceOwnership "student" "id" true (some "inst-A")
        (fun _ => some "res-1")
        (fun _ _ => some { id := "res-1", institutionId := "inst-B" }) =
      MwOutcome.forbidden "Acceso denegado a este recurso" ∧
    validateResourceOwnership "student" "id" true (some "inst-A")
        (fun _ => some "res-1")
        (fun _ _ => some { id := "res-1", institutionId := "inst-A" }) =
      MwOutcome.next ∧
    validateResourceOwnership "student" "id" true (some "inst-A")
        (fun _ => some "res-1") (fun _ _ => none) =
      MwOutcome.badRequest "Recurso no encontrado" ∧
    validateResourceOwnership "course" "id" true (some "inst-A")
        (fun _ => some "res-1")
        (fun _ _ => some { id := "res-1", institutionId := "inst-A" }) =
      MwOutcome.forbidden "Error validando propiedad del recurso" :=
  ⟨(((validateResourceOwnership_schema_isolation "student" "id" "inst-A" "res-1"
      (fun _ => some "res-1")
      (fun _ _ => some { id := "res-1", institutionId := "inst-B" })
      (by decide) (by decide) rfl (by decide)).1 rfl).2
      { id := "res-1", institutionId := "inst-B" } rfl).1 (by decide),
   (((validateResourceOwnership_schema_isolation "student" "id" "inst-A" "res-1"
      (fun _ => some "res-1")
      (fun _ _ => some { id := "res-1", institutionId := "inst-A" })
      (by decide) (by decide) rfl (by decide)).1 rfl).2
      { id := "res-1", institutionId := "inst-A" } rfl).2 rfl,
   ((validateResourceOwnership_schema_isolation "student" "id" "inst-A" "res-1"
      (fun _ => some "res-1") (fun _ _ => none)
      (by decide) (by decide) rfl (by decide)).1 rfl).1 rfl,
   (validateResourceOwnership_schema_isolation "course" "id" "inst-A" "res-1"
      (fun _ => some "res-1")
      (fun _ _ => some { id := "res-1", institutionId := "inst-A" })
      (by decide) (by decide) rfl (by decide)).2 rfl⟩

/-! ## Optional-authentication theorems. -/

/-- Counterexample to claim C3 as stated: with an invalid bearer token
present, `optionalAuthenticate` does not proceed unauthenticated — the
inner `authenticate` sends its own `unauthorizedResponse` (it never
rejects, so the `catch` that would swallow failures is unreachable), and
the request receives an error response. -/
theorem optionalAuthenticate_error_not_swallowed :
    optionalAuthenticate (some ("Bearer".data ++ ' ' :: "badtoken".data))
        (fun _ => Except.error "Token inválido") (fun _ => none) =
      AuthOutcome.unauthorized "Token inválido" ∧
    optionalAuthenticate (some ("Bearer".data ++ ' ' :: "badtoken".data))
        (fun _ => Except.error "Token inválido") (fun _ => none) ≠
      AuthOutcome.nextUnauthed := by
  exact ⟨rfl, by decide⟩

/-- Claim C3 (amended): absence of a token — no extractable bearer token,
or the falsy empty token extracted from the header `"Bearer "` — is not
an error and the request proceeds unauthenticated; but when a non-empty
token is present `optionalAuthenticate` behaves exactly like the
mandatory `authenticate`, so every other authentication failure (invalid
or expired token, unknown user, inactive user, inactive institution, no
role) produces the same error response as mandatory authentication
instead of being swallowed. -/
theorem optionalAuthenticate_no_token_passthrough
    (authHeader : Option (List Char))
    (verify : List Char → Except String JwtPayload)
    (db : String → Option UserRec) :
    ((extractTokenFromHeader authHeader = none ∨
        extractTokenFromHeader authHeader = some []) →
      optionalAuthenticate authHeader verify db = AuthOutcome.nextUnauthed) ∧
    (∀ token, extractTokenFromHeader authHeader = some token → token ≠ [] →
      optionalAuthenticate authHeader verify db = authenticate authHeader verify db) := by
  constructor
  · rintro (h | h) <;> simp [optionalAuthenticate, h]
  · intro token ht htne
    simp [optionalAuthenticate, ht, htne]

/-- Witness for the amended C3: a missing header and the empty-token
header `"Bearer "` both proceed unauthenticated; an invalid non-empty
token gets exactly `authenticate`'s error. -/
theorem optionalAuthenticate_no_token_passthrough_witness :
    optionalAuthenticate none (fun _ => Except.error "Token expirado")
        (fun _ => none) = AuthOutcome.nextUnauthed ∧
    optionalAuthenticate (some "Bearer ".data)
        (fun _ => Except.error "Token expirado") (fun _ => none) =
      AuthOutcome.nextUnauthed ∧
    optionalAuthenticate (some ("Bearer".data ++ ' ' :: "t0".data))
        (fun _ => Except.error "Token expirado") (fun _ => none) =
      authenticate (some ("Bearer".data ++ ' ' :: "t0".data))
        (fun _ => Except.error "Token expirado") (fun _ => none) :=
  ⟨(optionalAuthenticate_no_token_passthrough none
      (fun _ => Except.error "Token expirado") (fun _ => none)).1 (Or.inl rfl),
   (optionalAuthenticate_no_token_passthrough (some "Bearer ".data)
      (fun _ => Except.error "Token expirado") (fun _ => none)).1 (Or.inr (by decide)),
   (optionalAuthenticate_no_token_passthrough
      (some ("Bearer".data ++ ' ' :: "t0".data))
      (fun _ => Except.error "Token expirado") (fun _ => none)).2
      "t0".data (by decide) (by decide)⟩

/-! ## Auth-service theorems. -/

/-- Claim C4: the three credential failures — unknown email, user with no
password set, and failed password verification — all produce the same
generic 401 `Credenciales inválidas` and are therefore indistinguishable
to the caller, while an inactive user (401, `Usuario inactivo`) and an
inactive institution (403, `Institución inactiva`) fail with distinct,
mutually distinguishable reasons. -/
theorem loginUser_anti_enumeration (data : LoginData)
    (db : String → Option UserRec) (vp : String → String → Bool) (u : UserRec) :
    (db data.email = none →
      loginUser data db vp = Except.error ⟨401, "Credenciales inválidas"⟩) ∧
    (db data.email = some u → u.isActive = true →
      u.institutionStatus = some "active" → u.password = none →
      loginUser data db vp = Except.error ⟨401, "Credenciales inválidas"⟩) ∧
    (∀ storedHash, db data.email = some u → u.isActive = true →
      u.institutionStatus = some "active" → u.password = some storedHash →
      vp data.password storedHash = false →
      loginUser data db vp = Except.error ⟨401, "Credenciales inválidas"⟩) ∧
    (db data.email = some u → u.isActive = false →
      loginUser data db vp = Except.error ⟨401, "Usuario inactivo"⟩) ∧
    (db data.email = some u → u.isActive = true →
      u.institutionStatus ≠ some "active" →
      loginUser data db vp = Except.error ⟨403, "Institución inactiva"⟩) ∧
    ((⟨401, "Usuario inactivo"⟩ : AppError) ≠ ⟨401, "Credenciales inválidas"⟩ ∧
     (⟨403, "Institución inactiva"⟩ : AppError) ≠ ⟨401, "Credenciales inválidas"⟩ ∧
     (⟨401, "Usuario inactivo"⟩ : AppError) ≠ ⟨403, "Institución inactiva"⟩) := by
  refine ⟨?_, ?_, ?_, ?_, ?_, by decide⟩
  · intro h
    simp [loginUser, h]
  · intro h h1 h2 h3
    simp [loginUser, h, h1, h2, h3]
  · intro storedHash h h1 h2 h3 h4
    simp [loginUser, h, h1, h2, h3, h4]
  · intro h h1
    simp [loginUser, h, h1]
  · intro h h1 h2
    simp [loginUser, h, h1, h2]

/-- Witness for C4: the three credential failures at concrete inputs all
evaluate to the identical generic 401, and the two inactivity failures to
their distinct errors. -/
theorem loginUser_anti_enumeration_witness :
    loginUser ⟨"a@x.com", "pw"⟩ (fun _ => none) (fun _ _ => true) =
      Except.error ⟨401, "Credenciales inválidas"⟩ ∧
    loginUser ⟨"a@x.com", "pw"⟩
        (fun _ => some (sampleUserRec true (some "active") none [sampleRole "TEACHER"]))
        (fun _ _ => true) =
      Except.error ⟨401, "Credenciales inválidas"⟩ ∧
    loginUser ⟨"a@x.com", "pw"⟩
        (fun _ => some (sampleUserRec true (some "active") (some "hash") [sampleRole "TEACHER"]))
        (fun _ _ => false) =
      Except.error ⟨401, "Credenciales inválidas"⟩ ∧
    loginUser ⟨"a@x.com", "pw"⟩
        (fun _ => some (sampleUserRec false (some "active") (some "hash") [sampleRole "TEACHER"]))
        (fun _ _ => true) =
      Except.error ⟨401, "Usuario inactivo"⟩ ∧
    loginUser ⟨"a@x.com", "pw"⟩
        (fun _ => some (sampleUserRec true (some "suspended") (some "hash") [sampleRole "TEACHER"]))
        (fun _ _ => true) =
      Except.error ⟨403, "Institución inactiva"⟩ :=
  ⟨(loginUser_anti_enumeration ⟨"a@x.com", "pw"⟩ (fun _ => none) (fun _ _ => true)
      (sampleUserRec true (some "active") none [])).1 rfl,
   (loginUser_anti_enumeration ⟨"a@x.com", "pw"⟩
      (fun _ => some (sampleUserRec true (some "active") none [sampleRole "TEACHER"]))
      (fun _ _ => true)
      (sampleUserRec true (some "active") none [sampleRole "TEACHER"])).2.1
      rfl rfl rfl rfl,
   (loginUser_anti_enumeration ⟨"a@x.com", "pw"⟩
      (fun _ => some (sampleUserRec true (some "active") (some "hash") [sampleRole "TEACHER"]))
      (fun _ _ => false)
      (sampleUserRec true (some "active") (some "hash") [sampleRole "TEACHER"])).2.2.1
      "hash" rfl rfl rfl rfl rfl,
   (loginUser_anti_enumeration ⟨"a@x.com", "pw"⟩
      (fun _ => some (sampleUserRec false (some "active") (some "hash") [sampleRole "TEACHER"]))
      (fun _ _ => true)
      (sampleUserRec false (some "active") (some "hash") [sampleRole "TEACHER"])).2.2.2.1
      rfl rfl,
   (loginUser_anti_enumeration ⟨"a@x.com", "pw"⟩
      (fun _ => some (sampleUserRec true (some "suspended") (some "hash") [sampleRole "TEACHER"]))
      (fun _ _ => true)
      (sampleUserRec true (some "suspended") (some "hash") [sampleRole "TEACHER"])).2.2.2.2.1
      rfl rfl (by decide)⟩

/-- Claim C6: with a refresh token that verifies, a missing principal, an
inactive principal or a non-active institution makes the refresh fail
with a 401; otherwise a fresh access+refresh pair is issued whose claims
carry the principal's current primary (else first) role assignment, so a
role change made after the refresh token was issued shows up in the new
access token's `roleName`. -/
theorem refreshTokens_uses_current_role (rt : List Char)
    (verifyR : List Char → Except String RefreshPayload)
    (db : String → Option UserRec) (payload : RefreshPayload)
    (hv : verifyR rt = Except.ok payload) :
    (db payload.userId = none →
      refreshTokens rt verifyR db = Except.error ⟨401, "Token de refresh inválido"⟩) ∧
    (∀ u, db payload.userId = some u →
      (u.isActive = false ∨ u.institutionStatus ≠ some "active") →
      refreshTokens rt verifyR db = Except.error ⟨401, "Token de refresh inválido"⟩) ∧
    (∀ u activeRole, db payload.userId = some u → u.isActive = true →
      u.institutionStatus = some "active" →
      findActiveRole u.userRoles = some activeRole →
      refreshTokens rt verifyR db = Except.ok (generateTokenPair
        { userId := u.id
          institutionId := u.institutionId
          roleId := activeRole.roleId
          roleName := activeRole.role.name
          email := u.email })) := by
  refine ⟨?_, fun u hu hbad => ?_, fun u ar hu h1 h2 h3 => ?_⟩
  · intro h
    simp [refreshTokens, hv, h]
  · rcases hbad with hbad | hbad <;> simp [refreshTokens, hv, hu, hbad]
  · simp [refreshTokens, hv, hu, h1, h2, h3]

/-- Witness for C6, mirroring the spec's scenario C: the refresh token was
issued while the user was a TEACHER (the refresh payload carries no role
at all), the user's primary role is now DIRECTOR, and the freshly issued
access token claims `roleName = "DIRECTOR"`. -/
theorem refreshTokens_uses_current_role_witness :
    refreshTokens "rtok".data (fun _ => Except.ok ⟨"user-1", "inst-1"⟩)
        (fun _ => some (sampleUserRec true (some "active") (some "hash")
          [sampleRole "DIRECTOR"])) =
      Except.ok (generateTokenPair
        { userId := "user-1"
          institutionId := "inst-1"
          roleId := "role-DIRECTOR"
          roleName := "DIRECTOR"
          email := "a@x.com" }) ∧
    (generateTokenPair
        { userId := "user-1"
          institutionId := "inst-1"
          roleId := "role-DIRECTOR"
          roleName := "DIRECTOR"
          email := "a@x.com" }).accessPayload.roleName = "DIRECTOR" :=
  ⟨(refreshTokens_uses_current_role "rtok".data
      (fun _ => Except.ok ⟨"user-1", "inst-1"⟩)
      (fun _ => some (sampleUserRec true (some "active") (some "hash")
        [sampleRole "DIRECTOR"]))
      ⟨"user-1", "inst-1"⟩ rfl).2.2
      (sampleUserRec true (some "active") (some "hash") [sampleRole "DIRECTOR"])
      (sampleRole "DIRECTOR") rfl rfl rfl rfl,
   rfl⟩

/-- Claim C7: when the email does not resolve to an active user,
`requestPasswordReset` waits a fixed artificial 1000 ms and returns a
dummy value structurally identical to the success value (a token string
plus a 15-minute expiry) with no database write; when it resolves to an
active user, it returns the generated token with a 15-minute
(900000 ms) expiry and stores token and expiry as attributes on the
principal. -/
theorem requestPasswordReset_uniform_response (email : String)
    (db : String → Option UserRec) (genToken : String) (nowMs : Nat) :
    ((db email = none ∨ ∃ u, db email = some u ∧ u.isActive = false) →
      requestPasswordReset email db genToken nowMs =
        { result := { resetToken := "dummy-token", expiresAtMs := nowMs + 900000 }
          delayMs := 1000
          stored := none }) ∧
    (∀ u, db email = some u → u.isActive = true →
      requestPasswordReset email db genToken nowMs =
        { result := { resetToken := genToken, expiresAtMs := nowMs + 900000 }
          delayMs := 0
          stored := some
            { userId := u.id
              passwordResetToken := genToken
              passwordResetExpiresMs := nowMs + 900000 } }) := by
  constructor
  · rintro (h | ⟨u, hu, hina⟩) <;> simp [requestPasswordReset, *]
  · intro u hu ha
    simp [requestPasswordReset, hu, ha]

/-- Witness for C7: a non-existent email and an existing-but-inactive
email produce the identical dummy outcome, and an active user gets the
real token stored with its expiry. -/
theorem requestPasswordReset_uniform_response_witness :
    requestPasswordReset "ghost@x.com" (fun _ => none) "tok123" 5000 =
      { result := { resetToken := "dummy-token", expiresAtMs := 905000 }
        delayMs := 1000
        stored := none } ∧
    requestPasswordReset "a@x.com"
        (fun _ => some (sampleUserRec false (some "active") (some "hash") []))
        "tok123" 5000 =
      { result := { resetToken := "dummy-token", expiresAtMs := 905000 }
        delayMs := 1000
        stored := none } ∧
    requestPasswordReset "a@x.com"
        (fun _ => some (sampleUserRec true (some "active") (some "hash") []))
        "tok123" 5000 =
      { result := { resetToken := "tok123", expiresAtMs := 905000 }
        delayMs := 0
        stored := some
          { userId := "user-1"
            passwordResetToken := "tok123"
            passwordResetExpiresMs := 905000 } } :=
  ⟨(requestPasswordReset_uniform_response "ghost@x.com" (fun _ => none)
      "tok123" 5000).1 (Or.inl rfl),
   (requestPasswordReset_uniform_response "a@x.com"
      (fun _ => some (sampleUserRec false (some "active") (some "hash") []))
      "tok123" 5000).1
      (Or.inr ⟨sampleUserRec false (some "active") (some "hash") [], rfl, rfl⟩),
   (requestPasswordReset_uniform_response "a@x.com"
      (fun _ => some (sampleUserRec true (some "active") (some "hash") []))
      "tok123" 5000).2
      (sampleUserRec true (some "active") (some "hash") []) rfl rfl⟩

/-! ## Password-validation theorem. -/

/-- Claim C9: `validatePassword` returns `isValid = true` exactly when the
length lies in `[8, 128]`, the password has an uppercase letter, a
lowercase letter and a digit, it has a special character whenever
`requireStrong` mode is on, and it contains none of the case-insensitive
deny-listed substrings `123456`, `password`, `qwerty`, `admin`,
`letmein`. -/
theorem validatePassword_isValid_iff (pw : List Char) (rs : Bool) :
    (validatePassword pw rs).isValid = true ↔
      (8 ≤ pw.length ∧ pw.length ≤ 128 ∧ hasUpperCase pw = true ∧
       hasLowerCase pw = true ∧ hasNumbers pw = true ∧
       (rs = true → hasSpecialChars pw = true) ∧
       hasCommonPattern pw = false) := by
  by_cases hpw : pw = []
  · subst hpw
    simp [validatePassword]
  · rw [validatePassword, if_neg hpw]
    simp only [List.isEmpty_iff, List.append_eq_nil, ite_eq_right_iff,
      List.cons_ne_nil, imp_false, Bool.not_eq_false, Bool.not_eq_true,
      not_and, not_lt]
    tauto
